import Mathlib

/-!
Shallow embedding of the library-management service
(`src/database.py` and `src/services/library_service.py`).

Modelling conventions:
* A datetime is an integer calendar-day number (plain `Int`).  Every date computation the
  verified claims depend on works at day granularity: the fee calculator
  compares `date()` values (whole days), due dates are `borrow + 14 days`,
  and record ordering compares borrow dates.  Time-of-day never influences
  the verified behaviour, so the embedding carries days only.
* Money is `ℚ`.  The Python code uses floats, but every monetary value it
  manipulates is an integer multiple of $0.50 (tier rates 0.50 and 1.00,
  cap 15.00) or a sum of such, all exactly representable in binary floats,
  so rational arithmetic computes the same values.  `round2` models
  Python's `round(x, 2)`; on every value the program rounds, the argument
  times 100 is an integer, where all rounding modes (including Python's
  round-half-to-even) agree with the floor-of-plus-half form used here.
* Python string primitives (`strip`, `lower`, `isdigit`, `startswith`,
  containment) are modelled over `String.data` so that every definition
  evaluates by kernel reduction.  Python's Unicode whitespace/digit
  classes agree with Lean's on the ASCII inputs these functions see.
* The SQLite store is a pair of lists (`books`, `borrow_records`).  Each
  accessor of `database.py` is a Lean function on this state; accessors
  that commit writes return the new state together with the boolean the
  Python function returns (`True` on every non-exceptional path).
* SQL `ORDER BY` is modelled with `List.insertionSort`, `SELECT ... WHERE`
  with `List.filter`/`List.find?`, and the `JOIN` in
  `get_patron_borrowed_books` with `List.filterMap` over a book lookup.
-/

/-- Python `str.strip()`: drop leading and trailing whitespace. -/
def pyStrip (s : String) : String :=
  ⟨((s.data.dropWhile Char.isWhitespace).reverse.dropWhile Char.isWhitespace).reverse⟩

/-- Python `str.lower()` (the inputs at hand are ASCII). -/
def pyLower (s : String) : String :=
  ⟨s.data.map Char.toLower⟩

/-- Python `needle in hay` substring test. -/
def strContainsSub (hay needle : String) : Bool :=
  go hay.data
where
  go : List Char → Bool
    | [] => needle.data.isPrefixOf []
    | c :: cs => needle.data.isPrefixOf (c :: cs) || go cs

/-- Python `hay.startswith(needle)`. -/
def strStartsWith (hay needle : String) : Bool :=
  needle.data.isPrefixOf hay.data

/-- A row of the `books` table (`database.py`, `init_database`). -/
structure Book where
  id : Nat
  title : String
  author : String
  isbn : String
  total_copies : Int
  available_copies : Int
deriving Repr, DecidableEq

/-- A row of the `borrow_records` table. -/
structure BorrowRecord where
  patron_id : String
  book_id : Nat
  borrow_date : Int
  due_date : Int
  return_date : Option Int
deriving Repr, DecidableEq

/-- The database state: the two tables. -/
structure DB where
  books : List Book
  records : List BorrowRecord
deriving Repr, DecidableEq

/-- Models `database.get_book_by_id`: `SELECT * FROM books WHERE id = ?` (first row). -/
def get_book_by_id (db : DB) (book_id : Nat) : Option Book :=
  db.books.find? (fun b => b.id == book_id)

/-- Models `database.get_book_by_isbn`: `SELECT * FROM books WHERE isbn = ?`. -/
def get_book_by_isbn (db : DB) (isbn : String) : Option Book :=
  db.books.find? (fun b => b.isbn == isbn)

/-- Models `database.get_all_books`: `SELECT * FROM books ORDER BY title`. -/
def get_all_books (db : DB) : List Book :=
  db.books.insertionSort (fun a b => a.title ≤ b.title)

/-- One element of the list `database.get_patron_borrowed_books` returns:
the borrow record joined with the book's title and author. -/
structure BorrowedBook where
  book_id : Nat
  title : String
  author : String
  borrow_date : Int
  due_date : Int
  is_overdue : Bool
  return_date : Option Int
deriving Repr, DecidableEq

/-- The `JOIN books b ON br.book_id = b.id` step for one record:
`none` when the referenced book is absent (the SQL join drops the row). -/
def joinRecord (db : DB) (now : Int) (r : BorrowRecord) : Option BorrowedBook :=
  (get_book_by_id db r.book_id).map fun b =>
    { book_id := r.book_id, title := b.title, author := b.author,
      borrow_date := r.borrow_date, due_date := r.due_date,
      is_overdue := decide (now > r.due_date), return_date := r.return_date }

/-- Models `database.get_patron_borrowed_books`: ALL of the patron's records
(open and closed), joined with `books`, ordered by borrow date descending. -/
def get_patron_borrowed_books (db : DB) (now : Int) (patron_id : String) :
    List BorrowedBook :=
  ((db.records.filter (fun r => r.patron_id == patron_id)).insertionSort
      (fun a b => b.borrow_date ≤ a.borrow_date)).filterMap (joinRecord db now)

/-- Models `database.get_patron_borrow_count`: count of the patron's records with
`return_date IS NULL`. -/
def get_patron_borrow_count (db : DB) (patron_id : String) : Nat :=
  (db.records.filter
    (fun r => r.patron_id == patron_id && r.return_date.isNone)).length

/-- The id `AUTOINCREMENT` assigns to the next inserted book. -/
def nextBookId (db : DB) : Nat :=
  db.books.foldl (fun m b => max m b.id) 0 + 1

/-- Models `database.insert_book`: fails (returns `False`) exactly when the
`UNIQUE` constraint on `isbn` fires; otherwise appends the row. -/
def insert_book (db : DB) (title author isbn : String)
    (total_copies available_copies : Int) : Bool × DB :=
  if db.books.any (fun b => b.isbn == isbn) then (false, db)
  else (true, { db with books := db.books ++
    [{ id := nextBookId db, title := title, author := author, isbn := isbn,
       total_copies := total_copies, available_copies := available_copies }] })

/-- Models `database.insert_borrow_record`: appends an open record. -/
def insert_borrow_record (db : DB) (patron_id : String) (book_id : Nat)
    (borrow_date due_date : Int) : Bool × DB :=
  (true, { db with records := db.records ++
    [{ patron_id := patron_id, book_id := book_id, borrow_date := borrow_date,
       due_date := due_date, return_date := none }] })

/-- Models `database.update_book_availability`:
`UPDATE books SET available_copies = available_copies + ? WHERE id = ?`.
Succeeds (returns `True`) even when no row matches. -/
def update_book_availability (db : DB) (book_id : Nat) (change : Int) : Bool × DB :=
  (true, { db with books := db.books.map fun b =>
    if b.id == book_id then { b with available_copies := b.available_copies + change }
    else b })

/-- Models `database.update_borrow_record_return_date`: sets `return_date` on the
patron's rows for this book with `return_date IS NULL`.  Succeeds even when
no row matches. -/
def update_borrow_record_return_date (db : DB) (patron_id : String)
    (book_id : Nat) (return_date : Int) : Bool × DB :=
  (true, { db with records := db.records.map fun r =>
    if r.patron_id == patron_id && r.book_id == book_id && r.return_date.isNone
    then { r with return_date := some return_date } else r })

/-- The patron-id check every service entry point performs:
`not patron_id or not patron_id.isdigit() or len(patron_id) != 6` rejects;
valid means non-empty, all digits, length 6. -/
def isValidPatronId (patron_id : String) : Bool :=
  !patron_id.data.isEmpty && patron_id.data.all Char.isDigit &&
    patron_id.data.length == 6

/-- Python's `round(x, 2)`.  On every value the program rounds, `x * 100`
is an integer, where this floor-of-plus-half form and Python's
round-half-to-even coincide (both are the identity). -/
def round2 (q : ℚ) : ℚ := ((q * 100 + 1 / 2).floor : ℚ) / 100

/-- Result dictionary of `calculate_late_fee_for_book`. -/
structure FeeResult where
  fee_amount : ℚ
  days_overdue : Int
  status : String
deriving Repr, DecidableEq

/-- Renders the abstract day number (stands for `strftime("%Y-%m-%d")`). -/
def fmtDate (d : Int) : String := toString d

/-- Renders a fee with two decimals (stands for the `:.2f` format). -/
def fmtMoney2 (q : ℚ) : String :=
  let c : ℤ := (q * 100 + 1 / 2).floor
  let sign := if c < 0 then "-" else ""
  let a := c.natAbs
  let frac := a % 100
  let fracStr := if frac < 10 then "0" ++ toString frac else toString frac
  sign ++ toString (a / 100) ++ "." ++ fracStr

/-- The tiered-fee body of `calculate_late_fee_for_book` for the record it
found: the calculation date is the record's return date — or `now` when
the record is open — and the fee is $0.50/day for overdue days 1–7 plus
$1.00/day beyond, capped at $15.00 and rounded to 2 decimals. -/
def feeFromRecord (now : Int) (r : BorrowedBook) : FeeResult :=
  let calculation_date : Int := r.return_date.getD now
  let overdue_days : Int := calculation_date - r.due_date
  if overdue_days ≤ 0 then
    { fee_amount := 0, days_overdue := 0, status := "Not overdue." }
  else
    let tier1_days : Int := min overdue_days 7
    let fee1 : ℚ := (tier1_days : ℚ) * (1 / 2)
    let late_fee_calc : ℚ :=
      if overdue_days > 7 then fee1 + ((overdue_days - 7 : Int) : ℚ) * 1 else fee1
    let final_fee : ℚ := round2 (min late_fee_calc 15)
    { fee_amount := final_fee, days_overdue := overdue_days,
      status := "Book is " ++ toString overdue_days ++ " day(s) overdue." }

/-- Models `library_service.calculate_late_fee_for_book`.  Looks up the FIRST of
the patron's records (newest borrow first) whose `book_id` matches and
applies `feeFromRecord` to it. -/
def calculate_late_fee_for_book (db : DB) (now : Int) (patron_id : String)
    (book_id : Nat) : FeeResult :=
  if !isValidPatronId patron_id then
    { fee_amount := 0, days_overdue := 0, status := "Invalid patron ID format." }
  else
    match (get_patron_borrowed_books db now patron_id).find?
        (fun b => b.book_id == book_id) with
    | none =>
      match get_book_by_id db book_id with
      | none => { fee_amount := 0, days_overdue := 0, status := "Book not found." }
      | some _ => { fee_amount := 0, days_overdue := 0,
                    status := "Book is not currently borrowed by this patron." }
    | some r => feeFromRecord now r

/-- Models `library_service.add_book_to_catalog`: field validation in source
order, duplicate-ISBN check, then insertion.  (`total_copies` is typed
`Int` here, discharging the `isinstance(total_copies, int)` guard.) -/
def add_book_to_catalog (db : DB) (title author isbn : String)
    (total_copies : Int) : (Bool × String) × DB :=
  if (pyStrip title).data.isEmpty then ((false, "Title is required."), db)
  else if (pyStrip title).data.length > 200 then
    ((false, "Title must be less than 200 characters."), db)
  else if (pyStrip author).data.isEmpty then ((false, "Author is required."), db)
  else if (pyStrip author).data.length > 100 then
    ((false, "Author must be less than 100 characters."), db)
  else if isbn.data.length ≠ 13 then
    ((false, "ISBN must be exactly 13 digits."), db)
  else if total_copies ≤ 0 then
    ((false, "Total copies must be a positive integer."), db)
  else match get_book_by_isbn db isbn with
    | some _ => ((false, "A book with this ISBN already exists."), db)
    | none =>
      let (ok, db1) := insert_book db (pyStrip title) (pyStrip author) isbn
        total_copies total_copies
      if ok then
        ((true, "Book \"" ++ pyStrip title ++
          "\" has been successfully added to the catalog."), db1)
      else ((false, "Database error occurred while adding the book."), db1)

/-- Models `library_service.borrow_book_by_patron`: patron-id check, book
existence, availability, open-loan limit, then record insertion and
availability decrement. -/
def borrow_book_by_patron (db : DB) (now : Int) (patron_id : String)
    (book_id : Nat) : (Bool × String) × DB :=
  if !isValidPatronId patron_id then
    ((false, "Invalid patron ID. Must be exactly 6 digits."), db)
  else match get_book_by_id db book_id with
  | none => ((false, "Book not found."), db)
  | some book =>
    if book.available_copies ≤ 0 then
      ((false, "This book is currently not available."), db)
    else if get_patron_borrow_count db patron_id ≥ 5 then
      ((false, "You have reached the maximum borrowing limit of 5 books."), db)
    else
      let due_date := now + 14
      let (ok1, db1) := insert_borrow_record db patron_id book_id now due_date
      if !ok1 then
        ((false, "Database error occurred while creating borrow record."), db1)
      else
        let (ok2, db2) := update_book_availability db1 book_id (-1)
        if !ok2 then
          ((false, "Database error occurred while updating book availability."), db2)
        else
          ((true, "Successfully borrowed \"" ++ book.title ++ "\". Due date: " ++
            fmtDate due_date ++ "."), db2)

/-- Models `library_service.return_book_by_patron`.  NOTE (faithful to the
source): the looked-up list holds the patron's OPEN AND CLOSED records,
and the `next(...)` filter matches on `book_id` alone, without requiring
`return_date` to be null. -/
def return_book_by_patron (db : DB) (now : Int) (patron_id : String)
    (book_id : Nat) : (Bool × String) × DB :=
  if !isValidPatronId patron_id then
    ((false, "Invalid patron ID. Must be exactly 6 digits."), db)
  else
    match (get_patron_borrowed_books db now patron_id).find?
        (fun b => b.book_id == book_id) with
    | none => ((false, "No active borrowing record found for this book and patron."), db)
    | some _ =>
      let (ok1, db1) := update_borrow_record_return_date db patron_id book_id now
      if !ok1 then
        ((false, "Database error occurred while recording the return date."), db1)
      else
        let (ok2, db2) := update_book_availability db1 book_id 1
        if !ok2 then
          ((false, "Database error occurred while incrementing book availability."), db2)
        else
          -- `book['title']`: the record came from the join, so the book
          -- exists; the `.elim` default is unreachable on this path.
          let book_title := (get_book_by_id db2 book_id).elim "" (·.title)
          let fee_details := calculate_late_fee_for_book db2 now patron_id book_id
          let fee_message :=
            if fee_details.fee_amount > 0 then
              " A late fee of $" ++ fmtMoney2 fee_details.fee_amount ++
                " has been added to your account for " ++
                toString fee_details.days_overdue ++ " day(s) overdue."
            else ""
          ((true, "Successfully returned \"" ++ book_title ++ "\"." ++ fee_message), db2)

/-- Models `library_service.search_books_in_catalog`: search-type whitelist
first, then the empty-term catalog listing, then per-field matching over
the title-sorted catalog. -/
def search_books_in_catalog (db : DB) (search_term search_type : String) :
    List Book :=
  if !(["title", "author", "isbn"].contains (pyLower search_type)) then []
  else if (pyStrip search_term).data.isEmpty then get_all_books db
  else
    let term := pyLower (pyStrip search_term)
    let search_by := pyLower search_type
    (get_all_books db).filter fun b =>
      if search_by == "isbn" then b.isbn == pyStrip search_term
      else if search_by == "title" then strContainsSub (pyLower b.title) term
      else strContainsSub (pyLower b.author) term

/-- One entry of the report's `currently_borrowed_books` list. -/
structure OpenLoanEntry where
  book_id : Nat
  title : String
  due_date : String
  current_fee_amount : ℚ
deriving Repr, DecidableEq

/-- One entry of the report's `borrowing_history` list. -/
structure HistoryEntry where
  book_id : Nat
  title : String
  due_date : String
  return_date : String
  days_overdue : Int
  fee_amount : ℚ
deriving Repr, DecidableEq

/-- The successful report dictionary of `get_patron_status_report`. -/
structure PatronReport where
  patron_id : String
  currently_borrowed_count : Nat
  total_late_fees_owed : ℚ
  currently_borrowed_books : List OpenLoanEntry
  borrowing_history : List HistoryEntry
deriving Repr, DecidableEq

/-- Result type: `get_patron_status_report` returns either `{'error': ...}` or a report. -/
inductive ReportResult where
  | err (msg : String)
  | ok (report : PatronReport)
deriving Repr, DecidableEq

/-- The loop body of `get_patron_status_report`: accumulate the record's
fee (computed by `calculate_late_fee_for_book`, which looks the record up
again by book id) and append to the open or history list. -/
def reportStep (db : DB) (now : Int) (patron_id : String)
    (acc : ℚ × List OpenLoanEntry × List HistoryEntry) (r : BorrowedBook) :
    ℚ × List OpenLoanEntry × List HistoryEntry :=
  let fee_details := calculate_late_fee_for_book db now patron_id r.book_id
  match r.return_date with
  | none =>
    (acc.1 + fee_details.fee_amount,
     acc.2.1 ++ [{ book_id := r.book_id, title := r.title,
                   due_date := fmtDate r.due_date,
                   current_fee_amount := fee_details.fee_amount }],
     acc.2.2)
  | some rd =>
    (acc.1 + fee_details.fee_amount,
     acc.2.1,
     acc.2.2 ++ [{ book_id := r.book_id, title := r.title,
                   due_date := fmtDate r.due_date, return_date := fmtDate rd,
                   days_overdue := fee_details.days_overdue,
                   fee_amount := fee_details.fee_amount }])

/-- Models `library_service.get_patron_status_report`. -/
def get_patron_status_report (db : DB) (now : Int) (patron_id : String) :
    ReportResult :=
  if !isValidPatronId patron_id then .err "Invalid patron ID format."
  else
    let num_borrowed := get_patron_borrow_count db patron_id
    let borrowed_records := get_patron_borrowed_books db now patron_id
    let res := borrowed_records.foldl (reportStep db now patron_id) (0, [], [])
    .ok { patron_id := patron_id, currently_borrowed_count := num_borrowed,
          total_late_fees_owed := round2 res.1,
          currently_borrowed_books := res.2.1, borrowing_history := res.2.2 }

/-- The payment-gateway capability `refund_payment` delegates to:
`Except.error` models a raised exception, `.ok (success, message)` a
normal outcome. -/
abbrev RefundGateway := String → ℚ → Except String (Bool × String)

/-- Models `library_service.refund_late_fee_payment`: local validation of the
transaction id's `txn_` marker and the amount range, then delegation to
the gateway with exception conversion. -/
def refund_late_fee_payment (gw : RefundGateway) (transaction_id : String)
    (amount : ℚ) : Bool × String :=
  if transaction_id.data.isEmpty || !strStartsWith transaction_id "txn_" then
    (false, "Invalid transaction ID.")
  else if amount ≤ 0 then (false, "Refund amount must be greater than 0.")
  else if amount > 15 then (false, "Refund amount exceeds maximum late fee.")
  else
    match gw transaction_id amount with
    | .error e => (false, "Refund processing error: " ++ e)
    | .ok (true, message) => (true, message)
    | .ok (false, message) => (false, "Refund failed: " ++ message)

/-! ## Spec-side definitions and shared fixtures -/

/-- The late-fee formula as the spec states it, as a function of the
calendar-day difference between reference date and due date:
`min(min(days, 7) * 0.50 + max(days - 7, 0) * 1.00, 15.00)` rounded to
2 decimals, and `0.00` when `days <= 0`. -/
def specLateFee (days : Int) : ℚ :=
  if days ≤ 0 then 0
  else round2 (min (((min days 7 : Int) : ℚ) * (1 / 2) +
    ((max (days - 7) 0 : Int) : ℚ) * 1) 15)

/-- An empty database. -/
def dbEmpty : DB := { books := [], records := [] }

/-- Fixture: two books; patron `123456` holds a closed, 8-days-late record
for book 1 (due day 14, returned day 22) and no record for book 2. -/
def dbFee : DB :=
  { books := [{ id := 1, title := "Gatsby", author := "Fitzgerald",
                isbn := "9780743273565", total_copies := 2, available_copies := 2 },
              { id := 2, title := "Mockingbird", author := "Lee",
                isbn := "9780061120084", total_copies := 1, available_copies := 1 }],
    records := [{ patron_id := "123456", book_id := 1, borrow_date := 0,
                  due_date := 14, return_date := some 22 }] }

/-- The joined row `get_patron_borrowed_books dbFee 100 "123456"` yields
for the single record of `dbFee`. -/
def rFee : BorrowedBook :=
  { book_id := 1, title := "Gatsby", author := "Fitzgerald", borrow_date := 0,
    due_date := 14, is_overdue := true, return_date := some 22 }

/-! ## C3: tiered late-fee formula -/

/-- C3: whenever the fee calculator finds a borrow record (open or
closed), the fee it computes equals the spec's tiered formula evaluated at
the calendar-day difference between the record's reference date (return
date if set, else now) and its due date, and the reported overdue days are
that difference clamped at 0. -/
theorem calculate_late_fee_matches_spec (db : DB) (now : Int)
    (pid : String) (bid : Nat) (r : BorrowedBook)
    (hpid : isValidPatronId pid = true)
    (hfind : (get_patron_borrowed_books db now pid).find?
      (fun b => b.book_id == bid) = some r) :
    (calculate_late_fee_for_book db now pid bid).fee_amount =
      specLateFee (r.return_date.getD now - r.due_date) ∧
    (calculate_late_fee_for_book db now pid bid).days_overdue =
      max (r.return_date.getD now - r.due_date) 0 := by
  have hcalc : calculate_late_fee_for_book db now pid bid = feeFromRecord now r := by
    simp [calculate_late_fee_for_book, hpid, hfind]
  rw [hcalc]
  constructor
  · by_cases hle : r.return_date.getD now - r.due_date ≤ 0
    · simp [feeFromRecord, specLateFee, hle]
    · simp only [feeFromRecord, specLateFee, if_neg hle]
      by_cases hgt : r.return_date.getD now - r.due_date > 7
      · simp only [if_pos hgt]
        have h0 : (0 : Int) ≤ r.return_date.getD now - r.due_date - 7 := by omega
        rw [max_eq_left h0]
      · simp only [if_neg hgt]
        have h0 : r.return_date.getD now - r.due_date - 7 ≤ (0 : Int) := by omega
        rw [max_eq_right h0]
        norm_num
  · by_cases hle : r.return_date.getD now - r.due_date ≤ 0
    · simp only [feeFromRecord, if_pos hle]
      exact (max_eq_right hle).symm
    · simp only [feeFromRecord, if_neg hle]
      have h0 : (0 : Int) ≤ r.return_date.getD now - r.due_date := by omega
      exact (max_eq_left h0).symm

-- Witness for C3: the fixture record of `dbFee` is 8 days late; the
-- computed fee is $4.50, and the spec's fee table values check out.
unseal Rat.add Rat.mul Rat.inv in
theorem calculate_late_fee_matches_spec_witness :
    (calculate_late_fee_for_book dbFee 100 "123456" 1).fee_amount =
      specLateFee (rFee.return_date.getD 100 - rFee.due_date) ∧
    specLateFee (rFee.return_date.getD 100 - rFee.due_date) = 9 / 2 ∧
    specLateFee 0 = 0 ∧ specLateFee 1 = 1 / 2 ∧ specLateFee 7 = 7 / 2 ∧
    specLateFee 8 = 9 / 2 ∧ specLateFee 22 = 15 ∧ specLateFee 30 = 15 :=
  ⟨(calculate_late_fee_matches_spec dbFee 100 "123456" 1 rFee (by decide)
      (by decide)).1,
   by decide, by decide, by decide, by decide, by decide, by decide, by decide⟩

/-! ## C9: totality of the fee entry point -/

/-- C9: the fee entry point is total (it is a Lean function, so it never
raises) and returns the structured zero-fee outcomes on every lookup
failure: malformed patron id, unknown book, and book not borrowed by this
patron. -/
theorem calculate_late_fee_error_outcomes (db : DB) (now : Int)
    (pid : String) (bid : Nat) :
    (isValidPatronId pid = false →
      calculate_late_fee_for_book db now pid bid =
        { fee_amount := 0, days_overdue := 0, status := "Invalid patron ID format." }) ∧
    (isValidPatronId pid = true →
      (get_patron_borrowed_books db now pid).find? (fun b => b.book_id == bid) = none →
      get_book_by_id db bid = none →
      calculate_late_fee_for_book db now pid bid =
        { fee_amount := 0, days_overdue := 0, status := "Book not found." }) ∧
    (isValidPatronId pid = true →
      (get_patron_borrowed_books db now pid).find? (fun b => b.book_id == bid) = none →
      ∀ book, get_book_by_id db bid = some book →
      calculate_late_fee_for_book db now pid bid =
        { fee_amount := 0, days_overdue := 0,
          status := "Book is not currently borrowed by this patron." }) := by
  refine ⟨fun hpid => ?_, fun hpid hfind hbook => ?_, fun hpid hfind book hbook => ?_⟩
  · simp [calculate_late_fee_for_book, hpid]
  · simp [calculate_late_fee_for_book, hpid, hfind, hbook]
  · simp [calculate_late_fee_for_book, hpid, hfind, hbook]

/-- Witness for C9: the three error outcomes at concrete inputs. -/
theorem calculate_late_fee_error_outcomes_witness :
    calculate_late_fee_for_book dbEmpty 0 "12ab56" 1 =
      { fee_amount := 0, days_overdue := 0, status := "Invalid patron ID format." } ∧
    calculate_late_fee_for_book dbEmpty 0 "123456" 1 =
      { fee_amount := 0, days_overdue := 0, status := "Book not found." } ∧
    calculate_late_fee_for_book dbFee 100 "123456" 2 =
      { fee_amount := 0, days_overdue := 0,
        status := "Book is not currently borrowed by this patron." } :=
  ⟨(calculate_late_fee_error_outcomes dbEmpty 0 "12ab56" 1).1 (by decide),
   (calculate_late_fee_error_outcomes dbEmpty 0 "123456" 1).2.1 (by decide)
     (by decide) (by decide),
   (calculate_late_fee_error_outcomes dbFee 100 "123456" 2).2.2 (by decide)
     (by decide)
     { id := 2, title := "Mockingbird", author := "Lee", isbn := "9780061120084",
       total_copies := 1, available_copies := 1 } (by decide)⟩

/-! ## C10: add-book validates only the ISBN's length -/

/-- C10: `add_book_to_catalog` checks only `len(isbn) == 13`, never that
the characters are digits: with valid title, author and copy count, a
13-character ISBN not present in the catalog is accepted whatever its
characters, and the book is inserted. -/
theorem add_book_accepts_nondigit_isbn (db : DB) (title author isbn : String)
    (total_copies : Int)
    (ht1 : (pyStrip title).data.isEmpty = false)
    (ht2 : (pyStrip title).data.length ≤ 200)
    (ha1 : (pyStrip author).data.isEmpty = false)
    (ha2 : (pyStrip author).data.length ≤ 100)
    (hisbn : isbn.data.length = 13)
    (hcopies : 0 < total_copies)
    (hdup : get_book_by_isbn db isbn = none) :
    (add_book_to_catalog db title author isbn total_copies).1 =
      (true, "Book \"" ++ pyStrip title ++
        "\" has been successfully added to the catalog.") ∧
    (add_book_to_catalog db title author isbn total_copies).2.books =
      db.books ++
        [{ id := nextBookId db, title := pyStrip title, author := pyStrip author,
           isbn := isbn, total_copies := total_copies,
           available_copies := total_copies }] := by
  have ht2' : ¬((pyStrip title).data.length > 200) := by omega
  have ha2' : ¬((pyStrip author).data.length > 100) := by omega
  have ht2l : ¬(200 < (pyStrip title).length) := by
    show ¬(200 < (pyStrip title).data.length)
    omega
  have ha2l : ¬(100 < (pyStrip author).length) := by
    show ¬(100 < (pyStrip author).data.length)
    omega
  have hc' : ¬(total_copies ≤ 0) := by omega
  have hany : db.books.any (fun b => b.isbn == isbn) = false := by
    rw [List.any_eq_false]
    intro b hb
    rcases List.find?_eq_none.mp hdup b hb with h
    exact h
  simp [add_book_to_catalog, insert_book, ht1, ha1, hisbn, hdup, hany,
    if_neg ht2', if_neg ha2', if_neg ht2l, if_neg ha2l, if_neg hc']

-- Witness for C10: `"ABCDEFGHIJKLM"` has 13 characters, none a digit, and
-- is accepted.
theorem add_book_accepts_nondigit_isbn_witness :
    "ABCDEFGHIJKLM".data.all Char.isDigit = false ∧
    (add_book_to_catalog dbEmpty "Title" "Author" "ABCDEFGHIJKLM" 3).1 =
      (true, "Book \"Title\" has been successfully added to the catalog.") :=
  ⟨by decide,
   (add_book_accepts_nondigit_isbn dbEmpty "Title" "Author" "ABCDEFGHIJKLM" 3
     (by decide) (by decide) (by decide) (by decide) (by decide) (by decide)
     (by decide)).1⟩

/-! ## C8: refund validation and delegation -/

/-- C8: `refund_late_fee_payment` rejects locally — with the same result
for every gateway, i.e. without consulting the adapter — whenever the
transaction id lacks the `txn_` marker or the amount is outside
`(0, 15.00]`; otherwise it delegates to the gateway, passes a success
through, wraps a failure message, and converts a raised exception into a
processing-error failure. -/
theorem refund_validation_and_delegation (gw : RefundGateway)
    (transaction_id : String) (amount : ℚ) :
    ((transaction_id.data.isEmpty = true ∨
        strStartsWith transaction_id "txn_" = false) →
      ∀ gw' : RefundGateway, refund_late_fee_payment gw' transaction_id amount =
        (false, "Invalid transaction ID.")) ∧
    (strStartsWith transaction_id "txn_" = true → amount ≤ 0 →
      ∀ gw' : RefundGateway, refund_late_fee_payment gw' transaction_id amount =
        (false, "Refund amount must be greater than 0.")) ∧
    (strStartsWith transaction_id "txn_" = true → 15 < amount →
      ∀ gw' : RefundGateway, refund_late_fee_payment gw' transaction_id amount =
        (false, "Refund amount exceeds maximum late fee.")) ∧
    (strStartsWith transaction_id "txn_" = true → 0 < amount → amount ≤ 15 →
      (∀ e, gw transaction_id amount = .error e →
        refund_late_fee_payment gw transaction_id amount =
          (false, "Refund processing error: " ++ e)) ∧
      (∀ m, gw transaction_id amount = .ok (true, m) →
        refund_late_fee_payment gw transaction_id amount = (true, m)) ∧
      (∀ m, gw transaction_id amount = .ok (false, m) →
        refund_late_fee_payment gw transaction_id amount =
          (false, "Refund failed: " ++ m))) := by
  have hne : strStartsWith transaction_id "txn_" = true →
      transaction_id.data.isEmpty = false := by
    intro hs
    cases hd : transaction_id.data with
    | nil => rw [strStartsWith, hd] at hs; exact absurd hs (by decide)
    | cons c cs => rfl
  refine ⟨fun h gw' => ?_, fun hs hle gw' => ?_, fun hs hgt gw' => ?_,
    fun hs h0 h15 => ?_⟩
  · rcases h with h | h
    · simp [refund_late_fee_payment, h]
    · have : transaction_id.data.isEmpty || !strStartsWith transaction_id "txn_" := by
        rw [h]; simp
      simp [refund_late_fee_payment, this]
  · simp [refund_late_fee_payment, hs, hne hs, hle]
  · have : ¬(amount ≤ 0) := by linarith
    simp [refund_late_fee_payment, hs, hne hs, this, hgt]
  · have h0' : ¬(amount ≤ 0) := by linarith
    have h15' : ¬(15 < amount) := by linarith
    refine ⟨fun e he => ?_, fun m hm => ?_, fun m hm => ?_⟩
    · simp [refund_late_fee_payment, hs, hne hs, h0', h15', he]
    · simp [refund_late_fee_payment, hs, hne hs, h0', h15', hm]
    · simp [refund_late_fee_payment, hs, hne hs, h0', h15', hm]

-- Witness for C8: each outcome at concrete inputs and gateways.
theorem refund_validation_and_delegation_witness :
    refund_late_fee_payment (fun _ _ => .ok (true, "unused")) "bad_1" 5 =
      (false, "Invalid transaction ID.") ∧
    refund_late_fee_payment (fun _ _ => .ok (true, "unused")) "txn_1" 0 =
      (false, "Refund amount must be greater than 0.") ∧
    refund_late_fee_payment (fun _ _ => .ok (true, "unused")) "txn_1" 16 =
      (false, "Refund amount exceeds maximum late fee.") ∧
    refund_late_fee_payment (fun _ _ => .error "gateway down") "txn_1" 5 =
      (false, "Refund processing error: gateway down") ∧
    refund_late_fee_payment (fun _ _ => .ok (true, "Refund issued")) "txn_1" 5 =
      (true, "Refund issued") ∧
    refund_late_fee_payment (fun _ _ => .ok (false, "No such transaction")) "txn_1" 5 =
      (false, "Refund failed: No such transaction") :=
  ⟨(refund_validation_and_delegation (fun _ _ => .ok (true, "unused")) "bad_1" 5).1
     (Or.inr (by decide)) _,
   (refund_validation_and_delegation (fun _ _ => .ok (true, "unused")) "txn_1" 0).2.1
     (by decide) (by norm_num) _,
   (refund_validation_and_delegation (fun _ _ => .ok (true, "unused")) "txn_1" 16).2.2.1
     (by decide) (by norm_num) _,
   ((refund_validation_and_delegation (fun _ _ => .error "gateway down") "txn_1" 5).2.2.2
     (by decide) (by norm_num) (by norm_num)).1 "gateway down" rfl,
   ((refund_validation_and_delegation (fun _ _ => .ok (true, "Refund issued")) "txn_1" 5).2.2.2
     (by decide) (by norm_num) (by norm_num)).2.1 "Refund issued" rfl,
   ((refund_validation_and_delegation (fun _ _ => .ok (false, "No such transaction")) "txn_1" 5).2.2.2
     (by decide) (by norm_num) (by norm_num)).2.2 "No such transaction" rfl⟩

/-! ## C4: borrowing limit of 5 open records -/

/-- Fixture: patron `654321` holds 5 open records; book 1 exists but has
no available copies, book 2 is available. -/
def dbLimit : DB :=
  { books := [{ id := 1, title := "Orwell", author := "G", isbn := "9780451524935",
                total_copies := 1, available_copies := 0 },
              { id := 2, title := "Odyssey", author := "H", isbn := "9780140268867",
                total_copies := 1, available_copies := 1 }],
    records := [{ patron_id := "654321", book_id := 3, borrow_date := 0,
                  due_date := 14, return_date := none },
                { patron_id := "654321", book_id := 4, borrow_date := 0,
                  due_date := 14, return_date := none },
                { patron_id := "654321", book_id := 5, borrow_date := 0,
                  due_date := 14, return_date := none },
                { patron_id := "654321", book_id := 6, borrow_date := 0,
                  due_date := 14, return_date := none },
                { patron_id := "654321", book_id := 7, borrow_date := 0,
                  due_date := 14, return_date := none }] }

/-- Counterexample to C4 as stated: patron `654321` has 5 open records,
yet the borrow attempt for (existing) book 1 fails with the availability
message, not the maximum-borrowing-limit message, because the
availability check runs first. -/
theorem borrow_at_limit_unavailable_book_message :
    get_patron_borrow_count dbLimit "654321" = 5 ∧
    (borrow_book_by_patron dbLimit 0 "654321" 1).1 =
      (false, "This book is currently not available.") ∧
    (borrow_book_by_patron dbLimit 0 "654321" 1).1.2 ≠
      "You have reached the maximum borrowing limit of 5 books." := by decide

/-- C4 (amended): for a patron with 5 (or more) open records and a valid
id, a borrow attempt for any EXISTING, AVAILABLE book fails with the
maximum-borrowing-limit message and leaves the database unchanged (no
record is created); a nonexistent or unavailable book fails earlier with
its own message. -/
theorem borrow_at_limit_rejected (db : DB) (now : Int) (pid : String)
    (bid : Nat) (book : Book)
    (hpid : isValidPatronId pid = true)
    (hbook : get_book_by_id db bid = some book)
    (havail : 0 < book.available_copies)
    (hcount : 5 ≤ get_patron_borrow_count db pid) :
    borrow_book_by_patron db now pid bid =
      ((false, "You have reached the maximum borrowing limit of 5 books."), db) := by
  have h1 : ¬(book.available_copies ≤ 0) := by omega
  simp [borrow_book_by_patron, hpid, hbook, h1, hcount]

-- Witness for C4: the available book 2 of `dbLimit` is refused with the
-- limit message and no write happens.
theorem borrow_at_limit_rejected_witness :
    borrow_book_by_patron dbLimit 0 "654321" 2 =
      ((false, "You have reached the maximum borrowing limit of 5 books."), dbLimit) :=
  borrow_at_limit_rejected dbLimit 0 "654321" 2
    { id := 2, title := "Odyssey", author := "H", isbn := "9780140268867",
      total_copies := 1, available_copies := 1 }
    (by decide) (by decide) (by decide) (by decide)

/-! ## C6: empty search term returns the whole catalog -/

/-- Fixture: a one-book catalog. -/
def dbCatalog : DB :=
  { books := [{ id := 1, title := "Gatsby", author := "Fitzgerald",
                isbn := "9780743273565", total_copies := 3, available_copies := 3 }],
    records := [] }

/-- Counterexample to C6 as stated: with an empty term but an INVALID
field name, the search-type whitelist runs first and returns the empty
list, not the catalog. -/
theorem empty_search_term_invalid_field_empty :
    search_books_in_catalog dbCatalog "" "publisher" = [] ∧
    get_all_books dbCatalog ≠ [] := by decide

instance : IsTotal Book (fun a b => a.title ≤ b.title) :=
  ⟨fun a b => le_total a.title b.title⟩

instance : IsTrans Book (fun a b => a.title ≤ b.title) :=
  ⟨fun _ _ _ hab hbc => le_trans hab hbc⟩

/-- C6 (amended): for every empty or whitespace-only term and any of the
three VALID fields (title/author/isbn, case-insensitive), search returns
the entire catalog sorted by title ascending (a permutation of the books
table, sorted by title); for an invalid field it returns the empty list
instead. -/
theorem empty_search_term_returns_catalog (db : DB) (term ty : String)
    (hty : pyLower ty = "title" ∨ pyLower ty = "author" ∨ pyLower ty = "isbn")
    (hterm : (pyStrip term).data.isEmpty = true) :
    search_books_in_catalog db term ty = get_all_books db ∧
    List.Sorted (fun a b : Book => a.title ≤ b.title)
      (search_books_in_catalog db term ty) ∧
    (search_books_in_catalog db term ty).Perm db.books := by
  have hsearch : search_books_in_catalog db term ty = get_all_books db := by
    unfold search_books_in_catalog
    rcases hty with h | h | h <;> rw [h] <;> simp [hterm]
  refine ⟨hsearch, ?_, ?_⟩
  · rw [hsearch]
    exact List.sorted_insertionSort _ db.books
  · rw [hsearch]
    exact List.perm_insertionSort _ db.books

-- Witness for C6: a whitespace term with field "TITLE" lists the
-- two-book catalog.
def dbTwoBooks : DB :=
  { books := [{ id := 1, title := "Zeta", author := "Z", isbn := "1111111111111",
                total_copies := 1, available_copies := 1 },
              { id := 2, title := "Alpha", author := "A", isbn := "2222222222222",
                total_copies := 1, available_copies := 1 }],
    records := [] }

theorem empty_search_term_returns_catalog_witness :
    search_books_in_catalog dbTwoBooks "   " "TITLE" = get_all_books dbTwoBooks ∧
    List.Sorted (fun a b : Book => a.title ≤ b.title)
      (search_books_in_catalog dbTwoBooks "   " "TITLE") ∧
    (search_books_in_catalog dbTwoBooks "   " "TITLE").Perm dbTwoBooks.books :=
  empty_search_term_returns_catalog dbTwoBooks "   " "TITLE"
    (Or.inl (by decide)) (by decide)

/-! ## C1: returning without an open record -/

/-- Fixture: patron `123456` has one CLOSED record for book 1 (returned on
day 5) and no open record; the book's availability is back at 1 of 1. -/
def dbDoubleReturn : DB :=
  { books := [{ id := 1, title := "Gatsby", author := "Fitzgerald",
                isbn := "9780743273565", total_copies := 1, available_copies := 1 }],
    records := [{ patron_id := "123456", book_id := 1, borrow_date := 0,
                  due_date := 14, return_date := some 5 }] }

/-- C1 (code bug): with NO open record — only a closed one — the second
return of the already-returned book SUCCEEDS instead of failing with the
"no active borrowing record" message, and it writes: availability rises
to 2 although only 1 copy exists.  The `next(...)` lookup in
`return_book_by_patron` matches on `book_id` alone and
`get_patron_borrowed_books` now also returns closed records. -/
theorem second_return_of_returned_book_succeeds :
    (return_book_by_patron dbDoubleReturn 6 "123456" 1).1.1 = true ∧
    (return_book_by_patron dbDoubleReturn 6 "123456" 1).1.2 ≠
      "No active borrowing record found for this book and patron." ∧
    (return_book_by_patron dbDoubleReturn 6 "123456" 1).2 ≠ dbDoubleReturn ∧
    (get_book_by_id (return_book_by_patron dbDoubleReturn 6 "123456" 1).2 1).map
      (fun b => b.available_copies) = some 2 := by decide

/-! ## C2: availability invariant under borrow/return sequences -/

/-- Fixture: a consistent single-copy catalog with no records. -/
def dbSeqStart : DB :=
  { books := [{ id := 1, title := "Solo", author := "A", isbn := "3333333333333",
                total_copies := 1, available_copies := 1 }],
    records := [] }

/-- C2 (code bug): starting from a consistent state, the operation
sequence borrow, return, return — each completing "successfully" — drives
`available_copies` to 2 while `total_copies` is 1, violating
`0 <= available_copies <= total_copies`.  The root cause is the C1 bug:
the second return matches the closed record and increments availability
again. -/
theorem borrow_return_return_breaks_invariant :
    (borrow_book_by_patron dbSeqStart 0 "123456" 1).1.1 = true ∧
    (return_book_by_patron (borrow_book_by_patron dbSeqStart 0 "123456" 1).2
      1 "123456" 1).1.1 = true ∧
    (return_book_by_patron (return_book_by_patron
      (borrow_book_by_patron dbSeqStart 0 "123456" 1).2 1 "123456" 1).2
      2 "123456" 1).1.1 = true ∧
    (get_book_by_id (return_book_by_patron (return_book_by_patron
      (borrow_book_by_patron dbSeqStart 0 "123456" 1).2 1 "123456" 1).2
      2 "123456" 1).2 1).map (fun b => b.available_copies) = some 2 ∧
    (get_book_by_id (return_book_by_patron (return_book_by_patron
      (borrow_book_by_patron dbSeqStart 0 "123456" 1).2 1 "123456" 1).2
      2 "123456" 1).2 1).map (fun b => b.total_copies) = some 1 := by decide

/-! ## C7: borrow/return availability round trip -/

/-- The available-copy count of a book, as the catalog stores it. -/
def availOf (db : DB) (bid : Nat) : Option Int :=
  (get_book_by_id db bid).map (fun b => b.available_copies)

/-- The row the `JOIN` of `get_patron_borrowed_books` produces for the
record freshly inserted by a borrow at time `now`, read back at `now2`. -/
def newJoinedRow (book : Book) (bid : Nat) (now now2 : Int) : BorrowedBook :=
  { book_id := bid, title := book.title, author := book.author,
    borrow_date := now, due_date := now + 14,
    is_overdue := decide (now2 > now + 14), return_date := none }

/-- The open record `borrow_book_by_patron` inserts. -/
def newRecord (pid : String) (bid : Nat) (now : Int) : BorrowRecord :=
  { patron_id := pid, book_id := bid, borrow_date := now, due_date := now + 14,
    return_date := none }

/-- Every modelled write commits (`database.py` returns `True` on every
non-exceptional path). -/
theorem insert_borrow_record_fst (db : DB) (pid : String) (bid : Nat)
    (bd dd : Int) : (insert_borrow_record db pid bid bd dd).1 = true := rfl

theorem update_book_availability_fst (db : DB) (bid : Nat) (c : Int) :
    (update_book_availability db bid c).1 = true := rfl

theorem update_borrow_record_return_date_fst (db : DB) (pid : String)
    (bid : Nat) (rd : Int) :
    (update_borrow_record_return_date db pid bid rd).1 = true := rfl

/-- Lookup after update: `get_book_by_id` after `update_book_availability`: the lookup sees the
adjusted row (the update preserves row ids). -/
theorem get_book_by_id_after_update (db : DB) (bid bid' : Nat) (c : Int) :
    get_book_by_id (update_book_availability db bid' c).2 bid =
      (get_book_by_id db bid).map (fun b =>
        if b.id == bid' then { b with available_copies := b.available_copies + c }
        else b) := by
  unfold get_book_by_id update_book_availability
  have hfun : ((fun b : Book => b.id == bid) ∘ (fun b : Book =>
      if b.id == bid' then { b with available_copies := b.available_copies + c }
      else b)) = (fun b : Book => b.id == bid) := by
    funext b
    by_cases h : b.id = bid'
    · simp [h]
    · simp [h]
  rw [List.find?_map, hfun]

/-- C7: from any state where the book exists with a positive available
count and the patron (valid id) is under the borrowing limit, borrowing
succeeds and decrements `available_copies` by exactly 1, the immediate
return of the same book by the same patron succeeds and increments it by
exactly 1, and so the round trip restores the original count. -/
theorem borrow_return_roundtrip (db : DB) (now now2 : Int) (pid : String)
    (bid : Nat) (book : Book)
    (hpid : isValidPatronId pid = true)
    (hbook : get_book_by_id db bid = some book)
    (havail : 0 < book.available_copies)
    (hcount : get_patron_borrow_count db pid < 5) :
    (borrow_book_by_patron db now pid bid).1.1 = true ∧
    availOf (borrow_book_by_patron db now pid bid).2 bid =
      some (book.available_copies - 1) ∧
    (return_book_by_patron (borrow_book_by_patron db now pid bid).2
      now2 pid bid).1.1 = true ∧
    availOf (return_book_by_patron (borrow_book_by_patron db now pid bid).2
      now2 pid bid).2 bid = some book.available_copies := by
  have h1 : ¬(book.available_copies ≤ 0) := by omega
  have h2 : ¬(5 ≤ get_patron_borrow_count db pid) := by omega
  have hbook' : db.books.find? (fun b => b.id == bid) = some book := hbook
  have hid : (book.id == bid) = true := List.find?_some (p := fun b : Book => b.id == bid) hbook'
  have hideq : book.id = bid := by simpa using hid
  have hdb2 : (borrow_book_by_patron db now pid bid).2 =
      (update_book_availability
        (insert_borrow_record db pid bid now (now + 14)).2 bid (-1)).2 := by
    simp [borrow_book_by_patron, hpid, hbook, h1, h2, insert_borrow_record_fst,
      update_book_availability_fst]
  have hbooks2 : get_book_by_id (borrow_book_by_patron db now pid bid).2 bid =
      some { book with available_copies := book.available_copies + (-1) } := by
    rw [hdb2, get_book_by_id_after_update]
    have hins : get_book_by_id (insert_borrow_record db pid bid now (now + 14)).2 bid =
        get_book_by_id db bid := rfl
    rw [hins, hbook]
    simp [hideq]
  have hr0mem : newRecord pid bid now ∈ (borrow_book_by_patron db now pid bid).2.records := by
    rw [hdb2]
    show _ ∈ db.records ++ [_]
    exact List.mem_append_right _ (List.mem_singleton.mpr rfl)
  have hjr : joinRecord (borrow_book_by_patron db now pid bid).2 now2
      (newRecord pid bid now) = some (newJoinedRow book bid now now2) := by
    rw [joinRecord]
    have hb : (newRecord pid bid now).book_id = bid := rfl
    rw [hb, hbooks2]
    rfl
  have hbbmem : newJoinedRow book bid now now2 ∈
      get_patron_borrowed_books (borrow_book_by_patron db now pid bid).2 now2 pid := by
    rw [get_patron_borrowed_books]
    apply List.mem_filterMap.mpr
    refine ⟨newRecord pid bid now, ?_, hjr⟩
    rw [List.mem_insertionSort]
    exact List.mem_filter.mpr ⟨hr0mem, by simp [newRecord]⟩
  have hfind : (get_patron_borrowed_books (borrow_book_by_patron db now pid bid).2
      now2 pid).find? (fun b => b.book_id == bid) ≠ none := by
    intro hnone
    have hnot := List.find?_eq_none.mp hnone _ hbbmem
    simp [newJoinedRow] at hnot
  obtain ⟨bb', hbb'⟩ := Option.ne_none_iff_exists'.mp hfind
  have hdb3 : (return_book_by_patron (borrow_book_by_patron db now pid bid).2
      now2 pid bid).2 =
      (update_book_availability
        (update_borrow_record_return_date
          (borrow_book_by_patron db now pid bid).2 pid bid now2).2 bid 1).2 := by
    simp [return_book_by_patron, hpid, hbb', update_borrow_record_return_date_fst,
      update_book_availability_fst]
  refine ⟨?_, ?_, ?_, ?_⟩
  · simp [borrow_book_by_patron, hpid, hbook, h1, h2, insert_borrow_record_fst,
      update_book_availability_fst]
  · rw [availOf, hbooks2]
    have hval : ({ book with available_copies :=
        book.available_copies + (-1) } : Book).available_copies =
        book.available_copies - 1 := by
      show book.available_copies + (-1) = book.available_copies - 1
      omega
    simp [hval]
    omega
  · simp [return_book_by_patron, hpid, hbb', update_borrow_record_return_date_fst,
      update_book_availability_fst]
  · rw [availOf, hdb3, get_book_by_id_after_update]
    have hkeep : get_book_by_id
        (update_borrow_record_return_date
          (borrow_book_by_patron db now pid bid).2 pid bid now2).2 bid =
        get_book_by_id (borrow_book_by_patron db now pid bid).2 bid := rfl
    rw [hkeep, hbooks2]
    have hval : book.available_copies + (-1) + 1 = book.available_copies := by omega
    simp [hideq, hval]

-- Witness for C7: borrowing book 1 of `dbFee` (2 copies available) and
-- returning it restores the count.
theorem borrow_return_roundtrip_witness :
    (borrow_book_by_patron dbFee 50 "123456" 1).1.1 = true ∧
    availOf (borrow_book_by_patron dbFee 50 "123456" 1).2 1 = some (2 - 1) ∧
    (return_book_by_patron (borrow_book_by_patron dbFee 50 "123456" 1).2
      60 "123456" 1).1.1 = true ∧
    availOf (return_book_by_patron (borrow_book_by_patron dbFee 50 "123456" 1).2
      60 "123456" 1).2 1 = some 2 :=
  borrow_return_roundtrip dbFee 50 60 "123456" 1
    { id := 1, title := "Gatsby", author := "Fitzgerald",
      isbn := "9780743273565", total_copies := 2, available_copies := 2 }
    (by decide) (by decide) (by decide) (by decide)

/-! ## C5: per-record fees in the status report -/

/-- The open-loan report entry built from a record's OWN due date and fee. -/
def openEntryOf (now : Int) (r : BorrowedBook) : OpenLoanEntry :=
  { book_id := r.book_id, title := r.title, due_date := fmtDate r.due_date,
    current_fee_amount := (feeFromRecord now r).fee_amount }

/-- The history report entry built from a record's OWN dates and fee. -/
def historyEntryOf (now : Int) (r : BorrowedBook) (rd : Int) : HistoryEntry :=
  { book_id := r.book_id, title := r.title, due_date := fmtDate r.due_date,
    return_date := fmtDate rd, days_overdue := (feeFromRecord now r).days_overdue,
    fee_amount := (feeFromRecord now r).fee_amount }

/-- Modelled from the spec: the open-loan list with every entry computed
from its own record. -/
def specOpenEntries (now : Int) (recs : List BorrowedBook) : List OpenLoanEntry :=
  recs.filterMap fun r =>
    match r.return_date with
    | none => some (openEntryOf now r)
    | some _ => none

/-- Modelled from the spec: the history list with every entry computed
from its own record. -/
def specHistoryEntries (now : Int) (recs : List BorrowedBook) : List HistoryEntry :=
  recs.filterMap fun r =>
    match r.return_date with
    | none => none
    | some rd => some (historyEntryOf now r rd)

/-- Modelled from the spec: the sum of every record's own fee. -/
def specFeeTotal (now : Int) (recs : List BorrowedBook) : ℚ :=
  (recs.map fun r => (feeFromRecord now r).fee_amount).sum

/-- Extracts the report's fee total. -/
def reportTotalOf : ReportResult → Option ℚ
  | .err _ => none
  | .ok r => some r.total_late_fees_owed

/-- Fixture: patron `123456` has TWO records for the SAME book 1 — a
closed one 3 days late (due day 2, returned day 5) and a later, still
open one (due day 30) that is not overdue at day 20. -/
def dbMultiLoan : DB :=
  { books := [{ id := 1, title := "Gatsby", author := "Fitzgerald",
                isbn := "9780743273565", total_copies := 2, available_copies := 1 }],
    records := [{ patron_id := "123456", book_id := 1, borrow_date := 0,
                  due_date := 2, return_date := some 5 },
                { patron_id := "123456", book_id := 1, borrow_date := 10,
                  due_date := 30, return_date := none }] }

-- Counterexample to C5 as stated: with two records for the same book,
-- the fee lookup by book id aliases both records to the most recently
-- borrowed one (the open, non-overdue loan), so the report's total is
-- $0.00, while summing each record's fee from its own dates gives $1.50.
unseal Rat.add Rat.mul Rat.inv in
theorem patron_report_same_book_aliases :
    reportTotalOf (get_patron_status_report dbMultiLoan 20 "123456") = some 0 ∧
    round2 (specLateFee (5 - 2) + specLateFee (20 - 30)) = 3 / 2 ∧
    (0 : ℚ) ≠ 3 / 2 := by decide

/-- In a list of records with pairwise-distinct book ids, the lookup by a
member's book id finds that member. -/
theorem find?_bookId_of_nodup (l : List BorrowedBook)
    (hnodup : (l.map (fun b => b.book_id)).Nodup) :
    ∀ r ∈ l, l.find? (fun b => b.book_id == r.book_id) = some r := by
  induction l with
  | nil => intro r hr; cases hr
  | cons a t ih =>
    intro r hr
    rw [List.map_cons, List.nodup_cons] at hnodup
    rcases List.mem_cons.mp hr with rfl | hrt
    · simp [List.find?_cons]
    · have hane : ¬((a.book_id == r.book_id) = true) := by
        simp only [beq_iff_eq]
        intro he
        exact hnodup.1 (he ▸ List.mem_map_of_mem _ hrt)
      rw [List.find?_cons_of_neg
        (p := fun b : BorrowedBook => b.book_id == r.book_id) t hane]
      exact ih hnodup.2 r hrt

/-- One step of the report loop, unfolded for each record shape. -/
theorem reportStep_foldl (db : DB) (now : Int) (pid : String)
    (l : List BorrowedBook)
    (hfee : ∀ r ∈ l,
      calculate_late_fee_for_book db now pid r.book_id = feeFromRecord now r) :
    ∀ (q : ℚ) (cur : List OpenLoanEntry) (hist : List HistoryEntry),
      l.foldl (reportStep db now pid) (q, cur, hist) =
        (q + specFeeTotal now l, cur ++ specOpenEntries now l,
          hist ++ specHistoryEntries now l) := by
  induction l with
  | nil =>
    intro q cur hist
    simp [specFeeTotal, specOpenEntries, specHistoryEntries]
  | cons a t ih =>
    intro q cur hist
    have ha := hfee a (List.mem_cons_self a t)
    have ht : ∀ r ∈ t,
        calculate_late_fee_for_book db now pid r.book_id = feeFromRecord now r :=
      fun r hr => hfee r (List.mem_cons_of_mem a hr)
    rw [List.foldl_cons]
    cases hrd : a.return_date with
    | none =>
      have hstep : reportStep db now pid (q, cur, hist) a =
          (q + (feeFromRecord now a).fee_amount, cur ++ [openEntryOf now a], hist) := by
        simp [reportStep, ha, hrd, openEntryOf]
      rw [hstep, ih ht]
      simp [specFeeTotal, specOpenEntries, specHistoryEntries, hrd,
        List.filterMap_cons, add_assoc]
    | some rd =>
      have hstep : reportStep db now pid (q, cur, hist) a =
          (q + (feeFromRecord now a).fee_amount, cur,
            hist ++ [historyEntryOf now a rd]) := by
        simp [reportStep, ha, hrd, historyEntryOf]
      rw [hstep, ih ht]
      simp [specFeeTotal, specOpenEntries, specHistoryEntries, hrd,
        List.filterMap_cons, add_assoc]

/-- C5 (amended): for a valid patron id, WHEN EVERY RECORD OF THE PATRON
IS FOR A DISTINCT BOOK, the report computes each entry's fee and overdue
days from that record's own due date and reference date (now for open
records, the record's return timestamp for closed ones), partitions the
records into open and history entries in order, and totals the
2-decimal-rounded sum of the per-record fees over ALL records.  (When the
patron holds several records for the SAME book, the calculator's lookup
by book id aliases them all to the most recently borrowed record — see
the counterexample.) -/
theorem patron_report_distinct_books (db : DB) (now : Int) (pid : String)
    (hpid : isValidPatronId pid = true)
    (hnodup : ((get_patron_borrowed_books db now pid).map
      (fun b => b.book_id)).Nodup) :
    get_patron_status_report db now pid = .ok
      { patron_id := pid,
        currently_borrowed_count := get_patron_borrow_count db pid,
        total_late_fees_owed :=
          round2 (specFeeTotal now (get_patron_borrowed_books db now pid)),
        currently_borrowed_books :=
          specOpenEntries now (get_patron_borrowed_books db now pid),
        borrowing_history :=
          specHistoryEntries now (get_patron_borrowed_books db now pid) } := by
  have hfee : ∀ r ∈ get_patron_borrowed_books db now pid,
      calculate_late_fee_for_book db now pid r.book_id = feeFromRecord now r := by
    intro r hr
    have hf := find?_bookId_of_nodup _ hnodup r hr
    simp [calculate_late_fee_for_book, hpid, hf]
  simp [get_patron_status_report, hpid,
    reportStep_foldl db now pid _ hfee 0 [] []]

/-- Fixture: patron `222222` with a closed 3-days-late record for book 1
and an open, not-yet-due record for book 2. -/
def dbReport : DB :=
  { books := [{ id := 1, title := "Gatsby", author := "Fitzgerald",
                isbn := "9780743273565", total_copies := 2, available_copies := 2 },
              { id := 2, title := "Mockingbird", author := "Lee",
                isbn := "9780061120084", total_copies := 1, available_copies := 0 }],
    records := [{ patron_id := "222222", book_id := 1, borrow_date := 0,
                  due_date := 2, return_date := some 5 },
                { patron_id := "222222", book_id := 2, borrow_date := 10,
                  due_date := 30, return_date := none }] }

-- Witness for C5: distinct books, one closed late record ($1.50) and one
-- open on-time record ($0.00); the report totals $1.50.
unseal Rat.add Rat.mul Rat.inv in
theorem patron_report_distinct_books_witness :
    get_patron_status_report dbReport 20 "222222" = .ok
      { patron_id := "222222",
        currently_borrowed_count := get_patron_borrow_count dbReport "222222",
        total_late_fees_owed :=
          round2 (specFeeTotal 20 (get_patron_borrowed_books dbReport 20 "222222")),
        currently_borrowed_books :=
          specOpenEntries 20 (get_patron_borrowed_books dbReport 20 "222222"),
        borrowing_history :=
          specHistoryEntries 20 (get_patron_borrowed_books dbReport 20 "222222") } ∧
    round2 (specFeeTotal 20 (get_patron_borrowed_books dbReport 20 "222222")) =
      3 / 2 :=
  ⟨patron_report_distinct_books dbReport 20 "222222" (by decide) (by decide),
   by decide⟩
